import Mathlib

/-!
Verification of the LoRa radio transport layer of the nexus repository
(src/examples/arduino/common/src/LoraRadio.cpp and its header).

The transport is shallowly embedded: the process-wide mutable globals
(INITIALIZED, LAST_RSSI, RF95) become a `RadioState` record threaded
explicitly, and every interaction with the environment (the result of
`open`/`close`/`write`/`read` syscalls in the simulated backend, the
driver booleans from the RH_RF95 library in the hardware backend, and the
`gettimeofday`-derived elapsed milliseconds in the receive polling loop)
is passed in as an explicit parameter, so every definition is executable.

Machine integers: `ssize_t`/`long`/`int16_t` results are `Int`; `size_t`,
`uint8_t` and `uint32_t` values are `Nat`, with the `(uint8_t)` narrowing
cast of `wait_recv` written as `% 256` where the source performs it.
-/

namespace Nexus

namespace Lora

/-- Result codes, mirroring `enum struct RC` of LoraRadio.h. -/
inductive RC where
  | Okay
  | AlreadyInit
  | NotInit
  | InitFailed
  | DeinitFailed
  | SetFrequencyFailed
  | SdActive
  | FailedToDeinitSd
  | FailedToRestoreSd
  | SendFailed
  | RecvFailed
  | TimedOut
deriving DecidableEq, Repr

/-- The process-wide radio state: the globals `INITIALIZED`, `LAST_RSSI`
and (for the simulated backend) the file descriptor `RF95`. -/
structure RadioState where
  initialized : Bool
  lastRssi : Int
  rf95 : Int
deriving DecidableEq, Repr

/-- State at process start: `INITIALIZED = false`, `LAST_RSSI = 1`, and the
zero-initialized static `int RF95`. -/
def initialState : RadioState :=
  { initialized := false, lastRssi := 1, rf95 := 0 }

/-- `bool is_active() { return INITIALIZED; }` -/
def is_active (st : RadioState) : Bool := st.initialized

/-- `int16_t last_rssi() { return LAST_RSSI; }` -/
def last_rssi (st : RadioState) : Int := st.lastRssi

/-- Simulated-backend `init`: `RF95 = open(NEXUS_LORA, O_RDWR)`, returning
`InitFailed` when `open` yields `-1`, else setting `INITIALIZED` and
returning `Okay`.  `openRes` is the value `open` returned. -/
def sim_init (openRes : Int) (st : RadioState) : RC × RadioState :=
  let st1 := { st with rf95 := openRes }
  if openRes = -1 then (RC.InitFailed, st1)
  else (RC.Okay, { st1 with initialized := true })

/-- Hardware-backend `init`: pin setup and reset pulse (no modelled state),
then `RF95.init()` and `RF95.setFrequency(...)`, whose boolean outcomes are
the parameters; failure of the first yields `InitFailed`, of the second
`SetFrequencyFailed`, and only full success sets `INITIALIZED`. -/
def hw_init (initOk setFreqOk : Bool) (st : RadioState) : RC × RadioState :=
  if initOk = false then (RC.InitFailed, st)
  else if setFreqOk = false then (RC.SetFrequencyFailed, st)
  else (RC.Okay, { st with initialized := true })

/-- Simulated-backend `deinit`: `NotInit` when not initialized; otherwise
`close(RF95)` (its result is `closeRes`), `DeinitFailed` when that is `-1`
(leaving `INITIALIZED` set), else clear `INITIALIZED` and return `Okay`. -/
def sim_deinit (closeRes : Int) (st : RadioState) : RC × RadioState :=
  if st.initialized = false then (RC.NotInit, st)
  else if closeRes = -1 then (RC.DeinitFailed, st)
  else (RC.Okay, { st with initialized := false })

/-- Hardware-backend `deinit`: `NotInit` when not initialized; otherwise
release the chip-select line (`pinMode(LORA_CS, INPUT)`, no modelled state),
clear `INITIALIZED` and return `Okay`. -/
def hw_deinit (st : RadioState) : RC × RadioState :=
  if st.initialized = false then (RC.NotInit, st)
  else (RC.Okay, { st with initialized := false })

/-- The prologue shared by `send` and `wait_recv`:
`RC rc = RC::Okay; if (!is_active()) rc = init();` for the simulated
backend. -/
def sim_autoInit (openRes : Int) (st : RadioState) : RC × RadioState :=
  if is_active st then (RC.Okay, st) else sim_init openRes st

/-- The same prologue for the hardware backend. -/
def hw_autoInit (initOk setFreqOk : Bool) (st : RadioState) : RC × RadioState :=
  if is_active st then (RC.Okay, st) else hw_init initOk setFreqOk st

/-- Simulated-backend `send`.  `writeRes` is the `ssize_t` result of the
single `write(RF95, buf, sz)` call, which the source performs
unconditionally (even when the auto-init just failed).  The third component
counts how many backend write attempts the call performed: the source
always performs exactly one. -/
def sim_send (openRes writeRes : Int) (sz : Nat) (st : RadioState) :
    RC × RadioState × Nat :=
  let p := sim_autoInit openRes st
  let rc := if writeRes < 0 ∨ writeRes ≠ (sz : Int) then RC.SendFailed else p.1
  (rc, p.2, 1)

/-- Hardware-backend `send`.  `sendOk` and `waitSentOk` are the boolean
results of `rf95->send(buf, sz)` and `rf95->waitPacketSent()`; thanks to the
short-circuit `rc == RC::Okay && ...` guards each is only invoked while
`rc` is still `Okay`.  The third component counts backend send attempts. -/
def hw_send (initOk setFreqOk sendOk waitSentOk : Bool) (st : RadioState) :
    RC × RadioState × Nat :=
  let p := hw_autoInit initOk setFreqOk st
  let attempts := if p.1 = RC.Okay then 1 else 0
  let rc1 := if p.1 = RC.Okay ∧ sendOk = false then RC.SendFailed else p.1
  let rc2 := if rc1 = RC.Okay ∧ waitSentOk = false then RC.TimedOut else rc1
  (rc2, p.2, attempts)

/-- One iteration of the simulated timed receive loop: the `ssize_t`
result of `read(RF95, buf, len)`, the bytes that read deposited at the
front of the buffer (meaningful only when `nread > 0`), and the
`gettimeofday`-derived `long elapsed_ms` computed right after it. -/
structure PollStep where
  nread : Int
  data : List Nat
  elapsed : Int
deriving DecidableEq, Repr

/-- A `read` into `buf` that returned `data` overwrites the front of the
buffer and leaves the rest. -/
def writeBytes (buf data : List Nat) : List Nat :=
  data ++ buf.drop data.length

/-- How the simulated timed receive loop exits: a read returned a positive
count (breaking with `rc` untouched), or the deadline check fired
(setting `rc = RC::RecvFailed`). -/
inductive LoopExit where
  | gotData (nread : Int) (data : List Nat)
  | deadline
deriving DecidableEq, Repr

/-- The `while (1)` polling loop of the simulated `wait_recv` for
`timeout_ms != 0`: read; on a positive count break with the data; else
compare `elapsed_ms >= timeout_ms` and break with `RecvFailed` once the
deadline has passed; otherwise iterate.  `none` means the supplied trace of
iterations ran out with the loop still spinning. -/
def wait_recv_loop (timeout : Nat) : List PollStep → Option LoopExit
  | [] => none
  | s :: rest =>
    if 0 < s.nread then some (LoopExit.gotData s.nread s.data)
    else if (timeout : Int) ≤ s.elapsed then some LoopExit.deadline
    else wait_recv_loop timeout rest

/-- Simulated-backend `wait_recv`.  `steps` supplies the syscall results of
the successive reads: for `timeout_ms != 0` they feed the polling loop, for
`timeout_ms == 0` the head is the single blocking read (`none` = that read
never returned).  On a positive read the source stores `(uint8_t)nread`
into `len` (modelled by `% 256`) and the read data sits at the front of
`buf`; on the `timeout_ms == 0` path a non-positive read yields
`RecvFailed`.  The result is the tuple (rc, state, buffer, len). -/
def sim_wait_recv (openRes : Int) (steps : List PollStep) (st : RadioState)
    (buf : List Nat) (len : Nat) (timeout : Nat) :
    Option (RC × RadioState × List Nat × Nat) :=
  let p := sim_autoInit openRes st
  if timeout ≠ 0 then
    match wait_recv_loop timeout steps with
    | none => none
    | some (LoopExit.gotData n d) => some (p.1, p.2, writeBytes buf d, n.toNat % 256)
    | some LoopExit.deadline => some (RC.RecvFailed, p.2, buf, len)
  else
    match steps with
    | [] => none
    | s :: _ =>
      if s.nread ≤ 0 then some (RC.RecvFailed, p.2, buf, len)
      else some (p.1, p.2, writeBytes buf s.data, s.nread.toNat % 256)

/-- Hardware-backend `wait_recv`: after the auto-init prologue the source
calls `waitAvailable`/`waitAvailableTimeout` unconditionally (their results
are discarded), then `RF95.recv(buf, &len)` guarded by `rc == RC::Okay`;
`recvOk` is that call's boolean result and on success it deposits
`recvData` in the buffer and `recvLen` in `len`. -/
def hw_wait_recv (initOk setFreqOk recvOk : Bool) (recvData : List Nat)
    (recvLen : Nat) (st : RadioState) (buf : List Nat) (len : Nat) :
    RC × RadioState × List Nat × Nat :=
  let p := hw_autoInit initOk setFreqOk st
  if p.1 = RC.Okay then
    if recvOk then (RC.Okay, p.2, writeBytes buf recvData, recvLen)
    else (RC.RecvFailed, p.2, buf, len)
  else (p.1, p.2, buf, len)

/-- One call into the transport, with the environment responses (syscall
results, driver booleans, poll trace) it consumed. -/
inductive Op where
  | simInit (openRes : Int)
  | simDeinit (closeRes : Int)
  | simSend (openRes writeRes : Int) (sz : Nat)
  | simWaitRecv (openRes : Int) (steps : List PollStep) (buf : List Nat)
      (len : Nat) (timeout : Nat)
  | hwInit (initOk setFreqOk : Bool)
  | hwDeinit
  | hwSend (initOk setFreqOk sendOk waitSentOk : Bool)
  | hwWaitRecv (initOk setFreqOk recvOk : Bool) (recvData : List Nat)
      (recvLen : Nat) (buf : List Nat) (len : Nat)

/-- The radio state after one operation; `none` when the operation never
returns (a receive blocked forever). -/
def stepOp (st : RadioState) : Op → Option RadioState
  | Op.simInit o => some (sim_init o st).2
  | Op.simDeinit c => some (sim_deinit c st).2
  | Op.simSend o w sz => some (sim_send o w sz st).2.1
  | Op.simWaitRecv o steps buf len t =>
      (sim_wait_recv o steps st buf len t).map (fun r => r.2.1)
  | Op.hwInit a b => some (hw_init a b st).2
  | Op.hwDeinit => some (hw_deinit st).2
  | Op.hwSend a b c d => some (hw_send a b c d st).2.1
  | Op.hwWaitRecv a b c d e buf len => some (hw_wait_recv a b c d e st buf len).2.1

/-- Run a sequence of operations from a state; a call that never returns
freezes the state (the remaining operations are never reached). -/
def runOps (st : RadioState) : List Op → RadioState
  | [] => st
  | op :: rest =>
    match stepOp st op with
    | none => st
    | some st1 => runOps st1 rest

/-! ## Helper lemmas about state preservation -/

theorem sim_init_lastRssi (o : Int) (st : RadioState) :
    ((sim_init o st).2).lastRssi = st.lastRssi := by
  by_cases h : o = -1 <;> simp [sim_init, h]

theorem hw_init_lastRssi (a b : Bool) (st : RadioState) :
    ((hw_init a b st).2).lastRssi = st.lastRssi := by
  cases a <;> cases b <;> simp [hw_init]

theorem sim_autoInit_lastRssi (o : Int) (st : RadioState) :
    ((sim_autoInit o st).2).lastRssi = st.lastRssi := by
  by_cases h : is_active st <;> simp [sim_autoInit, h, sim_init_lastRssi]

theorem hw_autoInit_lastRssi (a b : Bool) (st : RadioState) :
    ((hw_autoInit a b st).2).lastRssi = st.lastRssi := by
  by_cases h : is_active st <;> simp [hw_autoInit, h, hw_init_lastRssi]

theorem sim_wait_recv_state (o : Int) (steps : List PollStep)
    (st : RadioState) (buf : List Nat) (len t : Nat) (r : RC × RadioState × List Nat × Nat)
    (h : sim_wait_recv o steps st buf len t = some r) :
    r.2.1 = (sim_autoInit o st).2 := by
  unfold sim_wait_recv at h
  by_cases ht : t ≠ 0 <;> simp [ht] at h
  · rcases hl : wait_recv_loop t steps with _ | e
    · simp [hl] at h
    · cases e <;> simp [hl] at h <;> simp [← h]
  · rcases steps with _ | ⟨s, rest⟩
    · simp at h
    · by_cases hn : s.nread ≤ 0 <;> simp [hn] at h <;> simp [← h]

theorem stepOp_lastRssi (st : RadioState) (op : Op) (st1 : RadioState)
    (h : stepOp st op = some st1) : st1.lastRssi = st.lastRssi := by
  cases op with
  | simInit o =>
      simp [stepOp] at h; rw [← h]; exact sim_init_lastRssi o st
  | simDeinit c =>
      simp [stepOp] at h; rw [← h]
      unfold sim_deinit
      by_cases h1 : st.initialized = false <;> by_cases h2 : c = -1 <;>
        simp [h1, h2]
  | simSend o w sz =>
      simp [stepOp, sim_send] at h; rw [← h]; exact sim_autoInit_lastRssi o st
  | simWaitRecv o steps buf len t =>
      simp only [stepOp, Option.map_eq_some'] at h
      obtain ⟨r, hr, hst⟩ := h
      rw [← hst, sim_wait_recv_state o steps st buf len t r hr]
      exact sim_autoInit_lastRssi o st
  | hwInit a b =>
      simp [stepOp] at h; rw [← h]; exact hw_init_lastRssi a b st
  | hwDeinit =>
      simp [stepOp] at h; rw [← h]
      unfold hw_deinit
      by_cases h1 : st.initialized = false <;> simp [h1]
  | hwSend a b c d =>
      simp [stepOp, hw_send] at h; rw [← h]; exact hw_autoInit_lastRssi a b st
  | hwWaitRecv a b c d e buf len =>
      simp [stepOp] at h; rw [← h]
      have hstate : (hw_wait_recv a b c d e st buf len).2.1 = (hw_autoInit a b st).2 := by
        unfold hw_wait_recv
        by_cases h1 : (hw_autoInit a b st).1 = RC.Okay <;> cases c <;> simp [h1]
      rw [hstate]; exact hw_autoInit_lastRssi a b st

theorem runOps_lastRssi (ops : List Op) (st : RadioState) :
    (runOps st ops).lastRssi = st.lastRssi := by
  induction ops generalizing st with
  | nil => rfl
  | cons op rest ih =>
      unfold runOps
      rcases hs : stepOp st op with _ | st1
      · rfl
      · rw [ih st1, stepOp_lastRssi st op st1 hs]

/-- A fixed Active state used to instantiate theorems at concrete inputs. -/
def activeState : RadioState := { initialized := true, lastRssi := 1, rf95 := 3 }

/-! ## Result-code range lemmas -/

theorem ite_rc_ne (c : Prop) [Decidable c] (x y : RC) (hx : x ≠ RC.AlreadyInit)
    (hy : y ≠ RC.AlreadyInit) : (if c then x else y) ≠ RC.AlreadyInit := by
  by_cases h : c <;> simp [h, hx, hy]

theorem sim_init_rc_ne (o : Int) (st : RadioState) :
    (sim_init o st).1 ≠ RC.AlreadyInit := by
  by_cases ho : o = -1 <;> simp [sim_init, ho]

theorem hw_init_rc_ne (a b : Bool) (st : RadioState) :
    (hw_init a b st).1 ≠ RC.AlreadyInit := by
  cases a <;> cases b <;> simp [hw_init]

theorem sim_autoInit_rc_ne (o : Int) (st : RadioState) :
    (sim_autoInit o st).1 ≠ RC.AlreadyInit := by
  by_cases h : is_active st
  · simp [sim_autoInit, h]
  · simp [sim_autoInit, h]
    exact sim_init_rc_ne o st

theorem hw_autoInit_rc_ne (a b : Bool) (st : RadioState) :
    (hw_autoInit a b st).1 ≠ RC.AlreadyInit := by
  by_cases h : is_active st
  · simp [hw_autoInit, h]
  · simp [hw_autoInit, h]
    exact hw_init_rc_ne a b st

theorem sim_wait_recv_rc (o : Int) (steps : List PollStep) (st : RadioState)
    (buf : List Nat) (len t : Nat) (r : RC × RadioState × List Nat × Nat)
    (h : sim_wait_recv o steps st buf len t = some r) :
    r.1 = (sim_autoInit o st).1 ∨ r.1 = RC.RecvFailed := by
  unfold sim_wait_recv at h
  by_cases ht : t ≠ 0 <;> simp [ht] at h
  · rcases hl : wait_recv_loop t steps with _ | e
    · simp [hl] at h
    · cases e <;> simp [hl] at h <;> simp [← h]
  · rcases steps with _ | ⟨s, rest⟩
    · simp at h
    · by_cases hn : s.nread ≤ 0 <;> simp [hn] at h <;> simp [← h]

/-! ## Loop lemmas for the simulated timed receive -/

theorem wait_recv_loop_gotData (t : Nat) (steps : List PollStep) (n : Int)
    (d : List Nat)
    (h : wait_recv_loop t steps = some (LoopExit.gotData n d)) :
    ∃ s ∈ steps, s.nread = n ∧ s.data = d ∧ 0 < s.nread := by
  induction steps with
  | nil => simp [wait_recv_loop] at h
  | cons s rest ih =>
    unfold wait_recv_loop at h
    by_cases h1 : 0 < s.nread
    · simp [h1] at h
      exact ⟨s, List.mem_cons_self s rest, h.1, h.2, h1⟩
    · by_cases h2 : (t : Int) ≤ s.elapsed <;> simp [h1, h2] at h
      obtain ⟨u, hu, hprops⟩ := ih h
      exact ⟨u, List.mem_cons_of_mem s hu, hprops⟩

theorem wait_recv_loop_no_data (t : Nat) (steps : List PollStep)
    (hnodata : ∀ s ∈ steps, s.nread ≤ 0) (e : LoopExit)
    (h : wait_recv_loop t steps = some e) : e = LoopExit.deadline := by
  induction steps with
  | nil => simp [wait_recv_loop] at h
  | cons s rest ih =>
    have hs : s.nread ≤ 0 := hnodata s (List.mem_cons_self s rest)
    have h1 : ¬ 0 < s.nread := not_lt.mpr hs
    unfold wait_recv_loop at h
    by_cases h2 : (t : Int) ≤ s.elapsed <;> simp [h1, h2] at h
    · exact h.symm
    · exact ih (fun u hu => hnodata u (List.mem_cons_of_mem s hu)) h

/-! ## The claims -/

/-- C3: while the transport is Uninitialized, calling `deinit` returns
`NotInit` and changes no part of the radio state (initialized flag, last
RSSI, backend handle all unchanged), in both backends. -/
theorem c3_deinit_uninitialized (st : RadioState) (closeRes : Int)
    (h : is_active st = false) :
    sim_deinit closeRes st = (RC.NotInit, st) ∧
    hw_deinit st = (RC.NotInit, st) := by
  simp only [is_active] at h
  constructor <;> simp [sim_deinit, hw_deinit, h]

/-- Witness for C3 at the process-start state. -/
theorem c3_witness :
    sim_deinit 0 initialState = (RC.NotInit, initialState) ∧
    hw_deinit initialState = (RC.NotInit, initialState) :=
  c3_deinit_uninitialized initialState 0 rfl

/-- C4: the lifecycle state tracks operation outcomes exactly: `init`
returning `Okay` leaves `is_active()` true; `init` returning `InitFailed`
or `SetFrequencyFailed` from the Uninitialized state leaves it
Uninitialized; `deinit` returning `Okay` leaves `is_active()` false. -/
theorem c4_lifecycle_tracking :
    (∀ o st, (sim_init o st).1 = RC.Okay → is_active (sim_init o st).2 = true) ∧
    (∀ a b st, (hw_init a b st).1 = RC.Okay → is_active (hw_init a b st).2 = true) ∧
    (∀ o st, is_active st = false →
      ((sim_init o st).1 = RC.InitFailed ∨ (sim_init o st).1 = RC.SetFrequencyFailed) →
      is_active (sim_init o st).2 = false) ∧
    (∀ a b st, is_active st = false →
      ((hw_init a b st).1 = RC.InitFailed ∨ (hw_init a b st).1 = RC.SetFrequencyFailed) →
      is_active (hw_init a b st).2 = false) ∧
    (∀ c st, (sim_deinit c st).1 = RC.Okay → is_active (sim_deinit c st).2 = false) ∧
    (∀ st, (hw_deinit st).1 = RC.Okay → is_active (hw_deinit st).2 = false) := by
  refine ⟨?_, ?_, ?_, ?_, ?_, ?_⟩
  · intro o st h
    by_cases ho : o = -1 <;> simp [sim_init, is_active, ho] at h ⊢
  · intro a b st h
    cases a <;> cases b <;> simp [hw_init, is_active] at h ⊢
  · intro o st hst h
    simp only [is_active] at hst ⊢
    by_cases ho : o = -1 <;> simp [sim_init, ho, hst] at h ⊢
  · intro a b st hst h
    simp only [is_active] at hst ⊢
    cases a <;> cases b <;> simp [hw_init, hst] at h ⊢
  · intro c st h
    by_cases h1 : st.initialized = false <;> by_cases h2 : c = -1 <;>
      simp [sim_deinit, is_active, h1, h2] at h ⊢
  · intro st h
    by_cases h1 : st.initialized = false <;> simp [hw_deinit, is_active, h1] at h ⊢

/-- Witness for C4 at concrete inputs of each kind. -/
theorem c4_witness :
    is_active (sim_init 3 initialState).2 = true ∧
    is_active (sim_init (-1) initialState).2 = false ∧
    is_active (sim_deinit 0 activeState).2 = false := by
  refine ⟨c4_lifecycle_tracking.1 3 initialState (by decide), ?_, ?_⟩
  · exact c4_lifecycle_tracking.2.2.1 (-1) initialState (by decide)
      (Or.inl (by decide))
  · exact c4_lifecycle_tracking.2.2.2.2.1 0 activeState (by decide)

/-- C9: no operation ever writes the stored RSSI, so after any sequence of
operations from process start, `last_rssi()` still returns the sentinel 1. -/
theorem c9_last_rssi_sentinel (ops : List Op) :
    last_rssi (runOps initialState ops) = 1 := by
  rw [last_rssi, runOps_lastRssi]
  rfl

/-- C10: when the simulated `deinit` fails to close the descriptor it
returns `DeinitFailed` with the state unchanged, so the transport remains
Active and an immediately following `deinit` does not return `NotInit`. -/
theorem c10_deinit_failed_stays_active (st : RadioState) (c2 : Int)
    (hact : is_active st = true) :
    sim_deinit (-1) st = (RC.DeinitFailed, st) ∧
    is_active (sim_deinit (-1) st).2 = true ∧
    (sim_deinit c2 (sim_deinit (-1) st).2).1 ≠ RC.NotInit := by
  simp only [is_active] at hact
  refine ⟨?_, ?_, ?_⟩
  · simp [sim_deinit, hact]
  · simp [sim_deinit, is_active, hact]
  · by_cases h2 : c2 = -1 <;> simp [sim_deinit, is_active, hact, h2]

/-- Witness for C10 at a concrete Active state. -/
theorem c10_witness :
    sim_deinit (-1) activeState = (RC.DeinitFailed, activeState) ∧
    (sim_deinit 0 (sim_deinit (-1) activeState).2).1 ≠ RC.NotInit :=
  ⟨(c10_deinit_failed_stays_active activeState 0 rfl).1,
   (c10_deinit_failed_stays_active activeState 0 rfl).2.2⟩

/-- C6: simulated `send` while Active performs exactly one write attempt,
returns `SendFailed` exactly when the write result differs from `sz`, and
`Okay` otherwise (the state is untouched). -/
theorem c6_sim_send_active (o w : Int) (sz : Nat) (st : RadioState)
    (hact : is_active st = true) :
    (sim_send o w sz st).2.2 = 1 ∧
    ((sim_send o w sz st).1 = RC.SendFailed ↔ w ≠ (sz : Int)) ∧
    ((sim_send o w sz st).1 = RC.Okay ↔ w = (sz : Int)) ∧
    (sim_send o w sz st).2.1 = st := by
  simp only [is_active] at hact
  by_cases hw : w = (sz : Int)
  · have hnn : ¬ w < 0 := by
      rw [hw]
      exact not_lt.mpr (Int.natCast_nonneg sz)
    simp [sim_send, sim_autoInit, is_active, hact, hw, hnn]
  · simp [sim_send, sim_autoInit, is_active, hact, hw]

/-- Witness for C6: a write of the full 5 requested bytes yields Okay. -/
theorem c6_witness : (sim_send 0 5 5 activeState).1 = RC.Okay :=
  ((c6_sim_send_active 0 5 5 activeState rfl).2.2.1).mpr (by decide)

theorem sim_send_rc_ne (o w : Int) (sz : Nat) (st : RadioState) :
    (sim_send o w sz st).1 ≠ RC.AlreadyInit := by
  show (if w < 0 ∨ w ≠ (sz : Int) then RC.SendFailed else (sim_autoInit o st).1) ≠
    RC.AlreadyInit
  exact ite_rc_ne _ _ _ (by decide) (sim_autoInit_rc_ne o st)

theorem hw_send_rc_ne (a b c d : Bool) (st : RadioState) :
    (hw_send a b c d st).1 ≠ RC.AlreadyInit := by
  show (if (if (hw_autoInit a b st).1 = RC.Okay ∧ c = false then RC.SendFailed
            else (hw_autoInit a b st).1) = RC.Okay ∧ d = false then RC.TimedOut
        else if (hw_autoInit a b st).1 = RC.Okay ∧ c = false then RC.SendFailed
        else (hw_autoInit a b st).1) ≠ RC.AlreadyInit
  exact ite_rc_ne _ _ _ (by decide)
    (ite_rc_ne _ _ _ (by decide) (hw_autoInit_rc_ne a b st))

theorem hw_wait_recv_rc_ne (a b c : Bool) (d : List Nat) (e : Nat)
    (st : RadioState) (buf : List Nat) (len : Nat) :
    (hw_wait_recv a b c d e st buf len).1 ≠ RC.AlreadyInit := by
  unfold hw_wait_recv
  by_cases h1 : (hw_autoInit a b st).1 = RC.Okay <;> cases c <;> simp [h1] <;>
    exact hw_autoInit_rc_ne a b st

/-- C7: `init` while already Active silently succeeds when the backend step
succeeds (returns `Okay`, stays Active, handle reconfigured), and the
`AlreadyInit` code is never returned by any code path of any operation of
either backend. -/
theorem c7_double_init_no_alreadyinit :
    (∀ o st, is_active st = true → o ≠ -1 →
      sim_init o st = (RC.Okay, { st with rf95 := o, initialized := true }) ∧
      is_active (sim_init o st).2 = true) ∧
    (∀ st, is_active st = true →
      hw_init true true st = (RC.Okay, { st with initialized := true }) ∧
      is_active (hw_init true true st).2 = true) ∧
    (∀ o st, (sim_init o st).1 ≠ RC.AlreadyInit) ∧
    (∀ c st, (sim_deinit c st).1 ≠ RC.AlreadyInit) ∧
    (∀ o w sz st, (sim_send o w sz st).1 ≠ RC.AlreadyInit) ∧
    (∀ o steps st buf len t r, sim_wait_recv o steps st buf len t = some r →
      r.1 ≠ RC.AlreadyInit) ∧
    (∀ a b st, (hw_init a b st).1 ≠ RC.AlreadyInit) ∧
    (∀ st, (hw_deinit st).1 ≠ RC.AlreadyInit) ∧
    (∀ a b c d st, (hw_send a b c d st).1 ≠ RC.AlreadyInit) ∧
    (∀ a b c d e st buf len, (hw_wait_recv a b c d e st buf len).1 ≠ RC.AlreadyInit) := by
  refine ⟨?_, ?_, sim_init_rc_ne, ?_, sim_send_rc_ne, ?_, hw_init_rc_ne, ?_,
    hw_send_rc_ne, hw_wait_recv_rc_ne⟩
  · intro o st _ ho
    simp [sim_init, is_active, ho]
  · intro st _
    simp [hw_init, is_active]
  · intro c st
    by_cases h1 : st.initialized = false <;> by_cases h2 : c = -1 <;>
      simp [sim_deinit, h1, h2]
  · intro o steps st buf len t r h
    rcases sim_wait_recv_rc o steps st buf len t r h with h1 | h1 <;> rw [h1]
    · exact sim_autoInit_rc_ne o st
    · decide
  · intro st
    by_cases h1 : st.initialized = false <;> simp [hw_deinit, h1]

/-- Witness for C7: a second init while Active with a good descriptor, and
a concrete send result distinct from AlreadyInit. -/
theorem c7_witness :
    sim_init 4 activeState =
      (RC.Okay, { activeState with rf95 := 4, initialized := true }) ∧
    (sim_send 0 0 1 activeState).1 ≠ RC.AlreadyInit :=
  ⟨(c7_double_init_no_alreadyinit.1 4 activeState rfl (by decide)).1,
   c7_double_init_no_alreadyinit.2.2.2.2.1 0 0 1 activeState⟩

/-- C5: `wait_recv` with `timeout_ms = 0` never returns `TimedOut`; under
the descriptor fact that a read on the failed-open descriptor (-1) cannot
yield data, the result is `Okay` (exactly when the single blocking read
returned a positive count) or `RecvFailed`. -/
theorem c5_blocking_recv_no_timedout (o : Int) (s : PollStep)
    (rest : List PollStep) (st : RadioState) (buf : List Nat) (len : Nat)
    (r : RC × RadioState × List Nat × Nat)
    (h : sim_wait_recv o (s :: rest) st buf len 0 = some r)
    (hfd : is_active st = false → o = -1 → s.nread ≤ 0) :
    r.1 ≠ RC.TimedOut ∧ (r.1 = RC.Okay ∨ r.1 = RC.RecvFailed) ∧
    (r.1 = RC.Okay → 0 < s.nread) := by
  unfold sim_wait_recv at h
  by_cases hn : s.nread ≤ 0 <;> simp [hn] at h
  · rw [← h]
    refine ⟨?_, Or.inr rfl, ?_⟩
    · show RC.RecvFailed ≠ RC.TimedOut
      decide
    · intro hc
      exact absurd (show RC.RecvFailed = RC.Okay from hc) (by decide)
  · have hok : (sim_autoInit o st).1 = RC.Okay := by
      by_cases hact : is_active st
      · simp [sim_autoInit, hact]
      · have ho : o ≠ -1 := by
          intro ho
          exact hn (hfd (by simp [hact]) ho)
        simp [sim_autoInit, hact, sim_init, ho]
    rw [← h]
    refine ⟨?_, Or.inl hok, fun _ => not_le.mp hn⟩
    show (sim_autoInit o st).1 ≠ RC.TimedOut
    rw [hok]
    decide

/-- Witness for C5: a blocking receive that gets 3 bytes at once. -/
theorem c5_witness :
    RC.Okay ≠ RC.TimedOut ∧ (RC.Okay = RC.Okay ∨ RC.Okay = RC.RecvFailed) ∧
    (RC.Okay = RC.Okay → (0 : Int) < 3) :=
  c5_blocking_recv_no_timedout 0 ⟨3, [7, 7, 7], 0⟩ [] activeState [0, 0, 0, 0] 4
    (RC.Okay, activeState, [7, 7, 7, 0], 3) (by decide) (by decide)

/-- C8: a successful `wait_recv` got its data from some read step that
returned a positive count; the reported length equals that count, never
exceeds the capacity `len`, and the buffer front holds exactly that data;
moreover in the timed path the loop succeeds immediately on the first
positive read. -/
theorem c8_recv_bounds (o : Int) (steps : List PollStep) (st : RadioState)
    (buf : List Nat) (len t : Nat) (r : RC × RadioState × List Nat × Nat)
    (hlen : len < 256)
    (hread : ∀ u ∈ steps, u.data.length = u.nread.toNat ∧ u.nread ≤ (len : Int))
    (h : sim_wait_recv o steps st buf len t = some r)
    (hok : r.1 = RC.Okay) :
    (∃ s ∈ steps, 0 < s.nread ∧ r.2.2.2 = s.nread.toNat ∧
      r.2.2.1 = writeBytes buf s.data ∧ s.data.length = r.2.2.2) ∧
    r.2.2.2 ≤ len ∧
    (∀ (s : PollStep) (rest : List PollStep), 0 < s.nread → t ≠ 0 →
      wait_recv_loop t (s :: rest) = some (LoopExit.gotData s.nread s.data)) := by
  have himm : ∀ (s : PollStep) (rest : List PollStep), 0 < s.nread → t ≠ 0 →
      wait_recv_loop t (s :: rest) = some (LoopExit.gotData s.nread s.data) := by
    intro s rest hs _
    unfold wait_recv_loop
    simp [hs]
  have hmain : ∃ s ∈ steps, 0 < s.nread ∧ r.2.2.2 = s.nread.toNat ∧
      r.2.2.1 = writeBytes buf s.data ∧ s.data.length = r.2.2.2 := by
    unfold sim_wait_recv at h
    by_cases ht : t ≠ 0 <;> simp [ht] at h
    · rcases hl : wait_recv_loop t steps with _ | e
      · simp [hl] at h
      · cases e with
        | gotData n d =>
            simp [hl] at h
            obtain ⟨s, hs, hsn, hsd, hspos⟩ := wait_recv_loop_gotData t steps n d hl
            subst hsn
            subst hsd
            have hbound : s.nread ≤ (len : Int) := (hread s hs).2
            have hmod : s.nread.toNat % 256 = s.nread.toNat :=
              Nat.mod_eq_of_lt (by omega)
            refine ⟨s, hs, hspos, ?_, ?_, ?_⟩
            · rw [← h]; exact hmod
            · rw [← h]
            · rw [← h]
              show s.data.length = s.nread.toNat % 256
              rw [hmod]
              exact (hread s hs).1
        | deadline =>
            simp [hl] at h
            rw [← h] at hok
            exact RC.noConfusion hok
    · rcases steps with _ | ⟨s, rest⟩
      · simp at h
      · by_cases hn : s.nread ≤ 0 <;> simp [hn] at h
        · rw [← h] at hok
          exact RC.noConfusion hok
        · have hs : s ∈ s :: rest := List.mem_cons_self s rest
          have hbound : s.nread ≤ (len : Int) := (hread s hs).2
          have hmod : s.nread.toNat % 256 = s.nread.toNat :=
            Nat.mod_eq_of_lt (by omega)
          refine ⟨s, hs, not_le.mp hn, ?_, ?_, ?_⟩
          · rw [← h]; exact hmod
          · rw [← h]
          · rw [← h]
            show s.data.length = s.nread.toNat % 256
            rw [hmod]
            exact (hread s hs).1
  obtain ⟨s, hs, hspos, hlen2, hbuf, hdata⟩ := hmain
  refine ⟨⟨s, hs, hspos, hlen2, hbuf, hdata⟩, ?_, himm⟩
  have hbound : s.nread ≤ (len : Int) := (hread s hs).2
  rw [hlen2]
  omega

/-- Witness for C8: a timed receive of 2 bytes into a 3-byte buffer. -/
theorem c8_witness :
    (2 : Nat) ≤ 3 ∧
    wait_recv_loop 10 [⟨2, [9, 9], 5⟩] =
      some (LoopExit.gotData 2 [9, 9]) := by
  have hc := c8_recv_bounds 0 [⟨2, [9, 9], 5⟩] activeState [0, 0, 0] 3 10
    (RC.Okay, activeState, [9, 9, 0], 2) (by decide) (by decide) (by decide) rfl
  exact ⟨hc.2.1, hc.2.2 ⟨2, [9, 9], 5⟩ [] (by decide) (by decide)⟩

/-- C1 as stated is false on the code: with a 5ms timeout and a single
empty read observed at elapsed 5ms, the simulated `wait_recv` returns
`RecvFailed`, which is not `TimedOut`. -/
theorem c1_counterexample :
    (sim_wait_recv 0 [⟨0, [], 5⟩] activeState [0, 0] 2 5).map Prod.fst =
      some RC.RecvFailed ∧ RC.RecvFailed ≠ RC.TimedOut := by decide

/-- C1 amended: with a positive timeout and no read ever yielding data, a
returning `wait_recv` reports `RecvFailed` (not `TimedOut`) once the
elapsed time reaches the timeout, leaving buffer and `len` unmodified. -/
theorem c1_amended_timeout_recvfailed (o : Int) (steps : List PollStep)
    (st : RadioState) (buf : List Nat) (len t : Nat)
    (r : RC × RadioState × List Nat × Nat)
    (ht : 0 < t)
    (hnodata : ∀ s ∈ steps, s.nread ≤ 0)
    (h : sim_wait_recv o steps st buf len t = some r) :
    r.1 = RC.RecvFailed ∧ r.2.2.1 = buf ∧ r.2.2.2 = len := by
  have ht0 : t ≠ 0 := Nat.pos_iff_ne_zero.mp ht
  unfold sim_wait_recv at h
  simp only [ht0, ne_eq, not_false_eq_true, if_true, ite_true, reduceIte] at h
  rcases hl : wait_recv_loop t steps with _ | e
  · simp [hl] at h
  · have he : e = LoopExit.deadline := wait_recv_loop_no_data t steps hnodata e hl
    subst he
    simp [hl] at h
    rw [← h]
    exact ⟨rfl, rfl, rfl⟩

/-- Witness for C1's amended theorem at a concrete timed-out run. -/
theorem c1_amended_witness :
    RC.RecvFailed = RC.RecvFailed ∧ ([5, 5] : List Nat) = [5, 5] ∧ (2 : Nat) = 2 :=
  c1_amended_timeout_recvfailed 0 [⟨0, [], 5⟩] activeState [5, 5] 2 5
    (RC.RecvFailed, activeState, [5, 5], 2) (by decide) (by decide) (by decide)

/-- C2 contradicts the code: in the simulated backend, when the auto-init
fails (open returns -1) the source still performs the backend write — on the
failed descriptor it returns -1 — and the call reports `SendFailed`, not
the init failure code; `wait_recv` likewise overwrites `InitFailed` with
`RecvFailed` at the deadline.  The hardware path's `rc == RC::Okay` guards
show the fail-closed intent the simulated path lacks. -/
theorem c2_autoinit_not_fail_closed :
    (sim_init (-1) initialState).1 = RC.InitFailed ∧
    (sim_send (-1) (-1) 1 initialState).1 = RC.SendFailed ∧
    (sim_send (-1) (-1) 1 initialState).1 ≠ RC.InitFailed ∧
    (sim_send (-1) (-1) 1 initialState).2.2 = 1 ∧
    (sim_wait_recv (-1) [⟨-1, [], 5⟩] initialState [0] 1 5).map Prod.fst =
      some RC.RecvFailed ∧
    (hw_send false true true true initialState).1 = RC.InitFailed ∧
    (hw_send false true true true initialState).2.2 = 0 := by decide

end Lora

end Nexus
